import Mathlib

/-!
Shallow embedding of the Query Orchestration & Approval-Gated Action Pipeline
of the `agentic_ai_repo` orchestrator (Rust, `src/orchestrator/src`).

The embedding follows the two handlers the claims are about:
  * `handle_query`   — src/orchestrator/src/api/query.rs
  * `handle_approve` — src/orchestrator/src/api/actions.rs
together with the three connector helpers `send_real_email`,
`create_real_jira_ticket` and `post_slack_message`.

Modelling conventions:
  * UUIDs are `Nat`; `Uuid::new_v4()` calls are modelled by an explicit
    fresh-identifier supply `f : Nat → Uuid` consumed at fixed indices, one
    index per `new_v4()` call site in the order the source performs them.
  * Network collaborators (embedding, search, LLM, code interpreter, SMTP,
    Jira, Slack) and the database are modelled by oracle records: a Boolean
    for "the call and the JSON-shape checks the code performs succeeded" and
    the data the code extracts from the response.  Floating point scores are
    carried opaquely as `Int`: no claim performs arithmetic on them.
  * Connector invocations are recorded as an explicit `ConnEvent` trace so
    that "a connector was called" is observable.
  * Every return point of both Rust handlers is `Ok(warp::reply::json(..))`;
    the model records this in the `isError`/`responseStatus` fields, which
    therefore reflect only the JSON body the handler chooses.
-/

deriving instance DecidableEq for Except

namespace AgenticAI

/-- UUIDs, abstracted to naturals. -/
abbrev Uuid := Nat

/-- The structured JSON payload of a pending action.  The drafting code in
query.rs only ever stores the keys `description`, `recipient`, `channel`,
`priority`; the executors read them back with `payload["k"].as_str()`,
which yields `none` when the key is absent. -/
structure Payload where
  description : Option String
  recipient : Option String
  channel : Option String
  priority : Option String
deriving DecidableEq, Repr

/-- One row of the `pending_actions` table (models.rs `PendingAction` /
the columns written by query.rs and actions.rs). -/
structure ActionRow where
  id : Uuid
  requestId : Uuid
  actionType : String
  targetService : String
  payload : Payload
  status : String
  approvedBy : Option String
deriving DecidableEq, Repr

/-- Process configuration read via `env::var` in query.rs / actions.rs.
`unwrap_or("")`-style defaults are represented by the empty string. -/
structure Env where
  smtpUser : String
  smtpPass : String
  jiraDomain : String
  slackWebhookUrl : String
  groqApiKey : String
deriving DecidableEq, Repr

/-- An outbound connector invocation (the actual transmit step of each
connector helper, after its credential checks passed). -/
inductive ConnEvent where
  | smtpSend (recipient : String) (subject : String) (body : String)
  | jiraCreate (summary : String)
  | slackPost (text : String)
deriving DecidableEq, Repr

/-- Success/failure oracles for the three connector transports. -/
structure ConnOracles where
  mailOk : Bool
  jiraOk : Bool
  slackOk : Bool
deriving DecidableEq, Repr

/-- actions.rs `send_real_email`: returns the connector events it emitted and
the `Result<(), String>` of the helper.  With SMTP credentials missing it
fails before any transport call; otherwise one message is transmitted, whose
success is the `mailOk` oracle.  (Mailbox parsing of well-formed recipients is
assumed to succeed; no claim concerns malformed mailbox syntax.) -/
def send_real_email (env : Env) (mailOk : Bool) (payload : Payload) :
    List ConnEvent × Except String Unit :=
  if env.smtpUser = "" ∨ env.smtpPass = "" then
    ([], Except.error "SMTP creds missing")
  else
    let description := payload.description.getD "No description"
    let recipient0 := payload.recipient.getD "admin@example.com"
    let recipient := if recipient0 = "admin@example.com" then env.smtpUser else recipient0
    ([ConnEvent.smtpSend recipient "🚨 Agentic AI Alert"
        ("Action executed:\n\n" ++ description)],
     if mailOk then Except.ok () else Except.error "smtp transport failure")

/-- actions.rs `create_real_jira_ticket`: fails before any call when
`JIRA_DOMAIN` is unset; otherwise posts one issue-creation request. -/
def create_real_jira_ticket (env : Env) (jiraOk : Bool) (payload : Payload) :
    List ConnEvent × Except String Unit :=
  if env.jiraDomain = "" then
    ([], Except.error "Jira credentials missing")
  else
    let summary := payload.description.getD "AI Generated Ticket"
    ([ConnEvent.jiraCreate summary],
     if jiraOk then Except.ok () else Except.error "Jira API Error")

/-- actions.rs `post_slack_message`: fails before any call when
`SLACK_WEBHOOK_URL` is unset; otherwise posts one webhook message. -/
def post_slack_message (env : Env) (slackOk : Bool) (payload : Payload)
    (userSignature : String) : List ConnEvent × Except String Unit :=
  if env.slackWebhookUrl = "" then
    ([], Except.error "SLACK_WEBHOOK_URL is not set")
  else
    let description := payload.description.getD "Alert from Agentic AI"
    ([ConnEvent.slackPost
        ("🔔 *Action Approved by " ++ userSignature ++
         "*\n\n*Action:* Slack Alert\n*Details:* " ++ description)],
     if slackOk then Except.ok () else Except.error "Slack API Error")

/-- actions.rs `ApproveRequest` body of POST /api/v1/approve. -/
structure ApproveRequest where
  actionId : Uuid
  approved : Bool
  userSignature : String
deriving DecidableEq, Repr

/-- Database oracles for the two statements `handle_approve` issues. -/
structure DbOracles where
  updateOk : Bool
  fetchOk : Bool
deriving DecidableEq, Repr

/-- The SQL `UPDATE pending_actions SET status=$1, approved_at=NOW(),
approved_by=$2 WHERE id=$3` of actions.rs line 59-61: every row whose id
matches is overwritten, with no condition on its current status. -/
def updateRows (rows : List ActionRow) (st sig : String) (aid : Uuid) :
    List ActionRow :=
  rows.map fun r =>
    if r.id = aid then { r with status := st, approvedBy := some sig } else r

/-- The `SELECT ... WHERE id = $1 ... fetch_optional` of actions.rs. -/
def findRow (rows : List ActionRow) (aid : Uuid) : Option ActionRow :=
  rows.find? fun r => r.id = aid

/-- Result of one `handle_approve` call: the table after the call, the
connector events emitted during the call, and the `status` field of the JSON
body returned (the handler returns `{"status":"error"}` only when the UPDATE
itself fails, and `{"status":"success"}` in every other case). -/
structure ApproveOutcome where
  rows : List ActionRow
  events : List ConnEvent
  responseStatus : String
deriving DecidableEq, Repr

/-- Dispatch of actions.rs lines 73-89: on the fetched row's `action_type`,
call exactly one connector helper; helper errors are only logged. -/
def executeByType (env : Env) (co : ConnOracles) (a : ActionRow)
    (sig : String) : List ConnEvent :=
  if a.actionType = "EMAIL_ALERT" then (send_real_email env co.mailOk a.payload).1
  else if a.actionType = "JIRA_TICKET" then (create_real_jira_ticket env co.jiraOk a.payload).1
  else if a.actionType = "SLACK_ALERT" then (post_slack_message env co.slackOk a.payload sig).1
  else []

/-- actions.rs `handle_approve`: set status to "approved"/"rejected" by an
unconditional id-keyed UPDATE; on UPDATE error return `{"status":"error"}`;
otherwise, when `approved`, re-fetch the row and execute its connector
(errors logged only), finally returning `{"status":"success"}`. -/
def handle_approve (env : Env) (db : DbOracles) (co : ConnOracles)
    (req : ApproveRequest) (rows : List ActionRow) : ApproveOutcome :=
  let status := if req.approved then "approved" else "rejected"
  if db.updateOk = false then
    { rows := rows, events := [], responseStatus := "error" }
  else
    let rows' := updateRows rows status req.userSignature req.actionId
    let events :=
      if req.approved then
        if db.fetchOk then
          match findRow rows' req.actionId with
          | some a => executeByType env co a req.userSignature
          | none => []
        else []
      else []
    { rows := rows', events := events, responseStatus := "success" }

/-! ## Query side — src/orchestrator/src/api/query.rs -/

/-- Rust `str::contains` (substring containment) on `List Char`. -/
def listContains : List Char → List Char → Bool
  | [], needle => needle.isEmpty
  | c :: rest, needle => needle.isPrefixOf (c :: rest) || listContains rest needle

/-- Rust `str::contains` on strings. -/
def strContains (hay needle : String) : Bool :=
  listContains hay.data needle.data

/-- The intents of the spec's Intent Classifier (§4.1).  query.rs encodes the
classification as its top-level if/else-if chain on `q_lower`. -/
inductive Intent where
  | CreateTicket
  | SendEmail
  | PostChatMessage
  | ExecuteComputation
  | AnswerFromKnowledgeBase
deriving DecidableEq, Repr

/-- query.rs line 27: `q_lower.contains("ticket") || q_lower.contains("incident")`. -/
def hasTicketKw (l : String) : Bool :=
  strContains l "ticket" || strContains l "incident"

/-- query.rs line 37: `q_lower.contains("email") || q_lower.contains("alert")`. -/
def hasEmailKw (l : String) : Bool :=
  strContains l "email" || strContains l "alert"

/-- query.rs line 47: `q_lower.contains("slack") || q_lower.contains("post to channel")`. -/
def hasChatKw (l : String) : Bool :=
  strContains l "slack" || strContains l "post to channel"

/-- query.rs line 70: `q_lower.contains("calculate") || q_lower.contains("solve") || q_lower.contains("math")`. -/
def hasComputeKw (l : String) : Bool :=
  strContains l "calculate" || strContains l "solve" || strContains l "math"

/-- Rust `str::to_lowercase`, character-wise.  (Rust lowercases the full
Unicode alphabet; on the ASCII keywords the classifier matches, per-character
`Char.toLower` agrees with it.) -/
def lowercase (s : String) : String :=
  String.mk (s.data.map Char.toLower)

/-- The classification performed by query.rs's branch chain: the branches are
tried in source order on `request.query.to_lowercase()`, the first match
winning, the RAG path being the default. -/
def classify (q : String) : Intent :=
  let l := lowercase q
  if hasTicketKw l then Intent.CreateTicket
  else if hasEmailKw l then Intent.SendEmail
  else if hasChatKw l then Intent.PostChatMessage
  else if hasComputeKw l then Intent.ExecuteComputation
  else Intent.AnswerFromKnowledgeBase

/-- query.rs `QueryRequest` body of POST /api/v1/query. -/
structure QueryReq where
  userId : String
  query : String
deriving DecidableEq, Repr

/-- One entry of the vector-search collaborator's `results` array, as read by
query.rs: `metadata.text`, `score`, `metadata.page`, and the metadata's own
document identifier (present in the collaborator contract, §6). -/
structure SearchMatch where
  text : String
  score : Int
  page : Option Int
  docId : Uuid
deriving DecidableEq, Repr

/-- models.rs `Citation`. -/
structure Citation where
  docId : Uuid
  passageId : Uuid
  page : Option Int
  text : String
  relevanceScore : Int
deriving DecidableEq, Repr

/-- Oracles for the collaborator calls and database writes of `handle_query`,
in source order.  A Boolean covers "the transport call and the JSON-shape
checks the code performs on its response all succeeded". -/
structure QueryOracles where
  requestInsertOk : Bool
  actionInsertOk : Bool
  codeGenOk : Bool
  codeContent : Option String
  interpOk : Bool
  interpOutput : Option String
  embedOk : Bool
  embeddings : List (List Int)
  searchOk : Bool
  searchResults : Option (List SearchMatch)
  llmOk : Bool
  llmContent : Option String
deriving DecidableEq, Repr

/-- Result of one `handle_query` call: the JSON response body fields, plus
what was durably written.  Every return point in the source is
`Ok(warp::reply::json(..))`, recorded here as `isError := false`. -/
structure QueryResult where
  summary : String
  citations : List Citation
  pendingActions : List Uuid
  contextText : String
  insertedRequest : Bool
  insertedAction : Option ActionRow
  isError : Bool
deriving DecidableEq, Repr

/-- query.rs line 120: `text.chars().take(150).collect()`. -/
def excerpt150 (t : String) : String :=
  String.mk (t.data.take 150)

/-- The citation built at query.rs line 120 for a match, with the two
`Uuid::new_v4()` calls drawn from the fresh supply at indices `2*k` and
`2*k+1`. -/
def mkCitation (f : Nat → Uuid) (k : Nat) (m : SearchMatch) : Citation :=
  { docId := f (2 * k), passageId := f (2 * k + 1), page := m.page,
    text := excerpt150 m.text, relevanceScore := m.score }

/-- The match loop of query.rs lines 115-122: matches with empty text are
skipped; each other match appends `- {text}\n` to the context and pushes a
citation whose ids are fresh UUIDs.  `k` counts the citations already built,
so the supply is consumed in the order the `new_v4()` calls occur. -/
def processMatches (f : Nat → Uuid) : Nat → List SearchMatch → String × List Citation
  | _, [] => ("", [])
  | k, m :: rest =>
    if m.text = "" then processMatches f k rest
    else
      let r := processMatches f (k + 1) rest
      ("- " ++ m.text ++ "\n" ++ r.1, mkCitation f k m :: r.2)

/-- query.rs line 29 payload for the ticket branch. -/
def ticketPayload (q : String) : Payload :=
  { description := some ("Create JIRA Ticket: '" ++ q ++ "'"),
    recipient := none, channel := none, priority := some "high" }

/-- query.rs line 39 payload for the email branch. -/
def emailPayload (q : String) : Payload :=
  { description := some ("Send Email: '" ++ q ++ "'"),
    recipient := some "admin@example.com", channel := none,
    priority := some "high" }

/-- query.rs lines 49-53 payload for the Slack branch. -/
def slackPayload (q : String) : Payload :=
  { description := some ("Post to Slack Channel: '" ++ q ++ "'"),
    recipient := none, channel := some "#general", priority := some "high" }

/-- The `pending_actions` row INSERTed by a drafting branch: id is the fresh
`action_id` (supply index 1; index 0 is `request_id`), status "pending". -/
def draftRow (f : Nat → Uuid) (actionType targetService : String)
    (payload : Payload) : ActionRow :=
  { id := f 1, requestId := f 0, actionType := actionType,
    targetService := targetService, payload := payload,
    status := "pending", approvedBy := none }

/-- PATH D of query.rs (lines 100-152), the RAG fallback: embed the query;
on success and a first vector, hybrid-search; collect citations/context from
the matches; default the context to "No relevant documents found."; ask the
LLM when `GROQ_API_KEY` is set, leaving `summary` as the initial empty string
when the key is unset or the call fails, and substituting "Error" when the
response carries no `content` string. -/
def ragPath (env : Env) (o : QueryOracles) (f : Nat → Uuid) : QueryResult :=
  let retrieved :=
    if o.embedOk then
      match o.embeddings.head? with
      | some _vec =>
        if o.searchOk then
          match o.searchResults with
          | some ms => processMatches (fun n => f (n + 2)) 0 ms
          | none => ("", [])
        else ("", [])
      | none => ("", [])
    else ("", [])
  let contextText :=
    if retrieved.1 = "" then "No relevant documents found." else retrieved.1
  let summary :=
    if env.groqApiKey = "" then ""
    else if o.llmOk then o.llmContent.getD "Error"
    else ""
  { summary := summary, citations := retrieved.2, pendingActions := [],
    contextText := contextText, insertedRequest := o.requestInsertOk,
    insertedAction := none, isError := false }

/-- query.rs `handle_query`.  The `requests` INSERT result is discarded by
the source (`let _ =`), modelled by recording `insertedRequest` without
letting it influence the response; likewise the `pending_actions` INSERT
result is discarded and the branch returns the drafted `action_id`
unconditionally.  PATH C (compute) returns its summary only when the whole
LLM → interpreter chain succeeds, and otherwise falls through to PATH D. -/
def handle_query (env : Env) (o : QueryOracles) (f : Nat → Uuid)
    (req : QueryReq) : QueryResult :=
  match classify req.query with
  | Intent.CreateTicket =>
    let actionId := f 1
    { summary := "✅ Prepared JIRA ticket (Action ID: " ++ toString actionId ++ ")",
      citations := [], pendingActions := [actionId], contextText := "",
      insertedRequest := o.requestInsertOk,
      insertedAction :=
        if o.actionInsertOk then
          some (draftRow f "JIRA_TICKET" "jira" (ticketPayload req.query))
        else none,
      isError := false }
  | Intent.SendEmail =>
    let actionId := f 1
    { summary := "✅ Drafted Email Alert (Action ID: " ++ toString actionId ++ ")",
      citations := [], pendingActions := [actionId], contextText := "",
      insertedRequest := o.requestInsertOk,
      insertedAction :=
        if o.actionInsertOk then
          some (draftRow f "EMAIL_ALERT" "smtp" (emailPayload req.query))
        else none,
      isError := false }
  | Intent.PostChatMessage =>
    let actionId := f 1
    { summary := "✅ I have drafted a Slack message. Check the 'Pending Actions' tab to approve and post it.",
      citations := [], pendingActions := [actionId], contextText := "",
      insertedRequest := o.requestInsertOk,
      insertedAction :=
        if o.actionInsertOk then
          some (draftRow f "SLACK_ALERT" "slack" (slackPayload req.query))
        else none,
      isError := false }
  | Intent.ExecuteComputation =>
    if env.groqApiKey = "" then ragPath env o f
    else if o.codeGenOk then
      match o.codeContent with
      | some pythonCode =>
        let cleanCode :=
          ((pythonCode.replace "```python" "").replace "```" "").trim
        if o.interpOk then
          let output := o.interpOutput.getD "No output"
          { summary := "🤖 **I wrote and executed a Python script to calculate this:**\n\nCode:\n```python\n" ++
              cleanCode ++ "\n```\n\nResult:\n```\n" ++ output ++ "\n```",
            citations := [], pendingActions := [], contextText := "",
            insertedRequest := o.requestInsertOk, insertedAction := none,
            isError := false }
        else ragPath env o f
      | none => ragPath env o f
    else ragPath env o f
  | Intent.AnswerFromKnowledgeBase => ragPath env o f

/-- A search match with its metadata document identifier blanked, used to
state that citation identifiers do not depend on it. -/
def scrubDocId (m : SearchMatch) : SearchMatch :=
  { m with docId := 0 }

/-! ## Concrete fixtures used by the claim theorems -/

/-- A configuration with SMTP/Jira/Slack credentials present and no LLM key. -/
def envX : Env :=
  { smtpUser := "ops@corp.example", smtpPass := "pw",
    jiraDomain := "https://x.example", slackWebhookUrl := "https://hooks.example",
    groqApiKey := "" }

/-- `envX` with the SMTP credentials absent. -/
def envNoCreds : Env :=
  { envX with smtpUser := "", smtpPass := "" }

/-- `envX` with a Groq API key configured. -/
def envGroq : Env :=
  { envX with groqApiKey := "gsk-test" }

/-- Both database statements succeed. -/
def dbAllOk : DbOracles := { updateOk := true, fetchOk := true }

/-- All connector transports succeed. -/
def connAllOk : ConnOracles := { mailOk := true, jiraOk := true, slackOk := true }

/-- A concrete injective fresh-UUID supply. -/
def uuidSupply : Nat → Uuid := fun n => n + 100

/-- A drafted SendEmail action in its initial Pending state. -/
def emailRow7 : ActionRow :=
  { id := 7, requestId := 3, actionType := "EMAIL_ALERT", targetService := "smtp",
    payload := emailPayload "send an email about the outage",
    status := "pending", approvedBy := none }

/-- An approval decision on action 7. -/
def approveReq7 : ApproveRequest :=
  { actionId := 7, approved := true, userSignature := "alice" }

/-- First approval of the pending action 7. -/
def approveOnce : ApproveOutcome :=
  handle_approve envX dbAllOk connAllOk approveReq7 [emailRow7]

/-- Second, identical approval of action 7, issued after the first one has
already moved it out of Pending. -/
def approveTwice : ApproveOutcome :=
  handle_approve envX dbAllOk connAllOk approveReq7 approveOnce.rows

/-- Approval of the pending action 7 with SMTP credentials absent. -/
def approveNoCreds : ApproveOutcome :=
  handle_approve envNoCreds dbAllOk connAllOk approveReq7 [emailRow7]

/-- A CreateTicket action already in the terminal Rejected state. -/
def rejectedRow8 : ActionRow :=
  { id := 8, requestId := 3, actionType := "JIRA_TICKET", targetService := "jira",
    payload := ticketPayload "create a ticket for the outage",
    status := "rejected", approvedBy := some "bob" }

/-- A later approval decision on the already-rejected action 8. -/
def approveReq8 : ApproveRequest :=
  { actionId := 8, approved := true, userSignature := "carol" }

/-- The decide call that hits the terminal action 8. -/
def approveRejected : ApproveOutcome :=
  handle_approve envX dbAllOk connAllOk approveReq8 [rejectedRow8]

/-- A drafted PostChatMessage action in its initial Pending state. -/
def row9 : ActionRow :=
  { id := 9, requestId := 4, actionType := "SLACK_ALERT", targetService := "slack",
    payload := slackPayload "post to channel that the deploy is done",
    status := "pending", approvedBy := none }

/-- A rejection decision on action 9. -/
def rejectReq9 : ApproveRequest :=
  { actionId := 9, approved := false, userSignature := "dana" }

/-- A later approval decision on the same action 9. -/
def approveReq9 : ApproveRequest :=
  { actionId := 9, approved := true, userSignature := "eve" }

/-- The rejection call on the pending action 9. -/
def rejectOutcome9 : ApproveOutcome :=
  handle_approve envX dbAllOk connAllOk rejectReq9 [row9]

/-- An approval call on action 9 issued after it was rejected. -/
def approveAfterReject9 : ApproveOutcome :=
  handle_approve envX dbAllOk connAllOk approveReq9 rejectOutcome9.rows

/-- A ticket-drafting query. -/
def reqTicket : QueryReq :=
  { userId := "u1", query := "please create a ticket for the outage" }

/-- A query matching none of the keyword branches. -/
def reqHello : QueryReq :=
  { userId := "u2", query := "hello" }

/-- All collaborator calls succeed; the search collaborator returns no
results array and the LLM returns no content (irrelevant to the branch
paths these oracles are used with). -/
def oAllOk : QueryOracles :=
  { requestInsertOk := true, actionInsertOk := true,
    codeGenOk := true, codeContent := none,
    interpOk := true, interpOutput := none,
    embedOk := true, embeddings := [],
    searchOk := true, searchResults := none,
    llmOk := true, llmContent := none }

/-- `oAllOk` with the `pending_actions` INSERT failing. -/
def oInsertFail : QueryOracles :=
  { oAllOk with actionInsertOk := false }

/-- `oAllOk` with the embedding collaborator unreachable. -/
def oEmbedDown : QueryOracles :=
  { oAllOk with embedOk := false }

/-- `oAllOk` with the embedding collaborator unreachable but the LLM
reachable and answering. -/
def oEmbedDownLlmOk : QueryOracles :=
  { oAllOk with embedOk := false, llmContent := some "General knowledge answer." }

/-- The ticket query processed with every write and collaborator healthy. -/
def queryTicketOk : QueryResult :=
  handle_query envX oAllOk uuidSupply reqTicket

/-- The ticket query processed while the `pending_actions` INSERT fails. -/
def queryInsertFail : QueryResult :=
  handle_query envX oInsertFail uuidSupply reqTicket

/-- The keyword-free query processed while the embedding collaborator is
unreachable and no LLM key is configured. -/
def queryEmbedDown : QueryResult :=
  handle_query envX oEmbedDown uuidSupply reqHello

/-- Two concrete search matches as one retrieval result: one with text and
a metadata document identifier, one with empty text. -/
def msEx : List SearchMatch :=
  [{ text := "Refund policy: 30 days.", score := 9, page := some 2, docId := 42 },
   { text := "", score := 1, page := none, docId := 77 }]

/-- A fresh-UUID supply producing even values from 100 on. -/
def fEven : Nat → Uuid := fun i => 100 + 2 * i

/-- A fresh-UUID supply producing odd values from 101 on, disjoint from
`fEven` — two separate response builds draw distinct fresh UUIDs. -/
def gOdd : Nat → Uuid := fun i => 101 + 2 * i

/-- A concrete payload whose recipient is explicitly set. -/
def payloadBob : Payload :=
  { description := some "Send Email: 'ping bob'", recipient := some "bob@corp.example",
    channel := none, priority := some "high" }

/-! ## Claim theorems -/

/-- Claim C1 (code_bug): the claim says the Pending-to-decided transition is
applied through a status-guarded compare-and-set, so that of two decisions on
the same action exactly one succeeds, at most one execution is triggered, and
the loser sees a Conflict/"already decided" outcome.  The source applies an
unconditional `UPDATE ... WHERE id = $3`: at the concrete failing input, a
second approval of action 7 — whose status is already "approved" — again
receives `{"status":"success"}` and again invokes the email connector, so two
decisions both succeed and two executions are triggered. -/
theorem approve_nonpending_succeeds_and_reexecutes :
    (findRow approveOnce.rows 7).map (fun r => r.status) = some "approved"
    ∧ approveOnce.events.length = 1
    ∧ approveTwice.responseStatus = "success"
    ∧ approveTwice.responseStatus ≠ "error"
    ∧ approveTwice.events.length = 1 := by
  decide

/-- Claim C2 (code_bug): the claim says that after the connector call the
action's persisted status is Executed on success and ExecutionFailed with the
connector's error text otherwise; in particular approving a SendEmail action
with mail credentials absent yields ExecutionFailed.  In the source the
executor's result is only logged and no status is ever written after the
connector call: at the failing input (SMTP credentials absent) the helper
fails before any transport call with "SMTP creds missing" — no crash — yet
the persisted status stays "approved". -/
theorem approve_email_without_creds_leaves_status_approved :
    send_real_email envNoCreds true (emailPayload "send an email about the outage")
      = ([], Except.error "SMTP creds missing")
    ∧ approveNoCreds.events = []
    ∧ approveNoCreds.responseStatus = "success"
    ∧ (findRow approveNoCreds.rows 7).map (fun r => r.status) = some "approved"
    ∧ (findRow approveNoCreds.rows 7).map (fun r => r.status) ≠ some "execution_failed"
    ∧ (findRow approveNoCreds.rows 7).map (fun r => r.status) ≠ some "executed" := by
  decide

/-- Claim C3 (code_bug): the claim says terminal states (Rejected, Executed,
ExecutionFailed) are never left and no later decide call changes the status,
decision timestamp or deciding actor.  At the failing input, a decide call on
action 8 — already in the terminal state "rejected" with approver "bob" —
overwrites its status to "approved", replaces the deciding actor with
"carol", invokes the Jira connector, and reports success. -/
theorem approve_mutates_rejected_action :
    rejectedRow8.status = "rejected"
    ∧ (findRow approveRejected.rows 8).map (fun r => r.status) = some "approved"
    ∧ (findRow approveRejected.rows 8).map (fun r => r.approvedBy) = some (some "carol")
    ∧ approveRejected.events.length = 1
    ∧ approveRejected.responseStatus = "success" := by
  decide

/-- Claim C4 (code_bug): the claim says that when persisting the Pending
Action row fails, submit-query returns a request-level error, and an action
id is returned only when the row was durably written.  The source discards
the INSERT's result (`let _ = sqlx::query(..)`): at the failing input the
`pending_actions` INSERT fails, yet the handler still returns a success
response carrying the drafted action id while no row was written. -/
theorem query_returns_action_id_despite_failed_insert :
    queryInsertFail.isError = false
    ∧ queryInsertFail.pendingActions = [uuidSupply 1]
    ∧ queryInsertFail.insertedAction = none
    ∧ queryInsertFail.summary = "✅ Prepared JIRA ticket (Action ID: 101)" := by
  decide

/-- Claim C5 (corrected), counterexample: the claim says that with the
embedding collaborator unreachable the query still returns a response whose
summary is a non-empty string and whose citation list is empty.  At this
concrete input (embedding down, `GROQ_API_KEY` unset) the handler does
return a non-error response with an empty citation list, but the summary is
the empty string — `summary` is initialised to `String::new()` and only ever
assigned inside the `!groq_api_key.is_empty()` block. -/
theorem embed_down_empty_summary_counterexample :
    queryEmbedDown.isError = false
    ∧ queryEmbedDown.citations = []
    ∧ queryEmbedDown.summary = ""
    ∧ ¬ queryEmbedDown.summary ≠ "" := by
  decide

/-- Claim C5 (corrected), amended: for every query on the answer path
(classification falls through to the knowledge-base branch), failure of the
embedding collaborator never propagates as a request failure: the response is
non-error, its citation list is empty, and its assembled context is the
explicit "No relevant documents found." fallback.  The summary, however, is
whatever the language-model step yields: the LLM's text (or "Error" when the
response carries no content) when `GROQ_API_KEY` is set and the call
succeeds, and the empty string when the key is unset or the call fails. -/
theorem embed_down_degrades_without_failing (env : Env) (o : QueryOracles)
    (f : Nat → Uuid) (req : QueryReq)
    (hembed : o.embedOk = false)
    (hintent : classify req.query = Intent.AnswerFromKnowledgeBase) :
    (handle_query env o f req).isError = false
    ∧ (handle_query env o f req).citations = []
    ∧ (handle_query env o f req).contextText = "No relevant documents found."
    ∧ (handle_query env o f req).summary =
        (if env.groqApiKey = "" then ""
         else if o.llmOk then o.llmContent.getD "Error" else "") := by
  simp [handle_query, hintent, ragPath, hembed]

/-- Claim C5 witness: the amended theorem applied at a concrete input where
the embedding collaborator is down but the LLM is configured and reachable. -/
theorem embed_down_degrades_without_failing_witness :
    oEmbedDownLlmOk.embedOk = false
    ∧ classify reqHello.query = Intent.AnswerFromKnowledgeBase
    ∧ ((handle_query envGroq oEmbedDownLlmOk uuidSupply reqHello).isError = false
       ∧ (handle_query envGroq oEmbedDownLlmOk uuidSupply reqHello).citations = []
       ∧ (handle_query envGroq oEmbedDownLlmOk uuidSupply reqHello).contextText
           = "No relevant documents found."
       ∧ (handle_query envGroq oEmbedDownLlmOk uuidSupply reqHello).summary =
           (if envGroq.groqApiKey = "" then ""
            else if oEmbedDownLlmOk.llmOk then oEmbedDownLlmOk.llmContent.getD "Error"
            else "")) :=
  ⟨rfl, by decide,
   embed_down_degrades_without_failing envGroq oEmbedDownLlmOk uuidSupply reqHello rfl
     (by decide)⟩

/-- Claim C6 (corrected), counterexample: the claim says the drafted action
is persisted with type `CreateTicket` and status `Pending`.  The source
persists the literal tags `"JIRA_TICKET"` and `"pending"`: at the concrete
ticket query the inserted row's `action_type` is `"JIRA_TICKET"`, not
`"CreateTicket"`, and its status is `"pending"`, not `"Pending"`. -/
theorem ticket_persisted_tag_counterexample :
    classify reqTicket.query = Intent.CreateTicket
    ∧ queryTicketOk.insertedAction.map (fun r => r.actionType) = some "JIRA_TICKET"
    ∧ ¬ queryTicketOk.insertedAction.map (fun r => r.actionType) = some "CreateTicket"
    ∧ queryTicketOk.insertedAction.map (fun r => r.status) = some "pending"
    ∧ ¬ queryTicketOk.insertedAction.map (fun r => r.status) = some "Pending" := by
  decide

/-- Claim C6 (corrected), amended: intent classification is a total function
of the query text checking the keyword groups in the fixed priority order
ticket/incident, then email/alert, then chat/channel, then compute/solve,
the first match winning and the knowledge-base intent being the default; a
query containing "ticket" or "incident" classifies as CreateTicket and (when
the INSERT succeeds) the drafted row is persisted with the code's tag for
that intent, `action_type = "JIRA_TICKET"`, and status `"pending"`, its id
being returned in `pending_actions`. -/
theorem classify_priority_and_ticket_draft (env : Env) (o : QueryOracles)
    (f : Nat → Uuid) (u q : String) (hins : o.actionInsertOk = true) :
    (hasTicketKw (lowercase q) = true →
       classify q = Intent.CreateTicket
       ∧ (handle_query env o f ⟨u, q⟩).insertedAction.map (fun r => r.actionType)
           = some "JIRA_TICKET"
       ∧ (handle_query env o f ⟨u, q⟩).insertedAction.map (fun r => r.status)
           = some "pending"
       ∧ (handle_query env o f ⟨u, q⟩).pendingActions = [f 1])
    ∧ (hasTicketKw (lowercase q) = false → hasEmailKw (lowercase q) = true →
         classify q = Intent.SendEmail)
    ∧ (hasTicketKw (lowercase q) = false → hasEmailKw (lowercase q) = false →
         hasChatKw (lowercase q) = true → classify q = Intent.PostChatMessage)
    ∧ (hasTicketKw (lowercase q) = false → hasEmailKw (lowercase q) = false →
         hasChatKw (lowercase q) = false → hasComputeKw (lowercase q) = true →
         classify q = Intent.ExecuteComputation)
    ∧ (hasTicketKw (lowercase q) = false → hasEmailKw (lowercase q) = false →
         hasChatKw (lowercase q) = false → hasComputeKw (lowercase q) = false →
         classify q = Intent.AnswerFromKnowledgeBase) := by
  refine ⟨?_, ?_, ?_, ?_, ?_⟩
  · intro h1
    have hc : classify q = Intent.CreateTicket := by simp [classify, h1]
    exact ⟨hc, by simp [handle_query, hc, hins, draftRow],
           by simp [handle_query, hc, hins, draftRow],
           by simp [handle_query, hc]⟩
  · intro h1 h2
    simp [classify, h1, h2]
  · intro h1 h2 h3
    simp [classify, h1, h2, h3]
  · intro h1 h2 h3 h4
    simp [classify, h1, h2, h3, h4]
  · intro h1 h2 h3 h4
    simp [classify, h1, h2, h3, h4]

/-- Claim C6 witness: the amended theorem applied at the concrete ticket
query with a succeeding INSERT. -/
theorem classify_priority_and_ticket_draft_witness :
    oAllOk.actionInsertOk = true
    ∧ ((hasTicketKw (lowercase reqTicket.query) = true →
          classify reqTicket.query = Intent.CreateTicket
          ∧ (handle_query envX oAllOk uuidSupply
                ⟨reqTicket.userId, reqTicket.query⟩).insertedAction.map
                (fun r => r.actionType) = some "JIRA_TICKET"
          ∧ (handle_query envX oAllOk uuidSupply
                ⟨reqTicket.userId, reqTicket.query⟩).insertedAction.map
                (fun r => r.status) = some "pending"
          ∧ (handle_query envX oAllOk uuidSupply
                ⟨reqTicket.userId, reqTicket.query⟩).pendingActions = [uuidSupply 1])
       ∧ (hasTicketKw (lowercase reqTicket.query) = false →
            hasEmailKw (lowercase reqTicket.query) = true →
            classify reqTicket.query = Intent.SendEmail)
       ∧ (hasTicketKw (lowercase reqTicket.query) = false →
            hasEmailKw (lowercase reqTicket.query) = false →
            hasChatKw (lowercase reqTicket.query) = true →
            classify reqTicket.query = Intent.PostChatMessage)
       ∧ (hasTicketKw (lowercase reqTicket.query) = false →
            hasEmailKw (lowercase reqTicket.query) = false →
            hasChatKw (lowercase reqTicket.query) = false →
            hasComputeKw (lowercase reqTicket.query) = true →
            classify reqTicket.query = Intent.ExecuteComputation)
       ∧ (hasTicketKw (lowercase reqTicket.query) = false →
            hasEmailKw (lowercase reqTicket.query) = false →
            hasChatKw (lowercase reqTicket.query) = false →
            hasComputeKw (lowercase reqTicket.query) = false →
            classify reqTicket.query = Intent.AnswerFromKnowledgeBase)) :=
  ⟨rfl, classify_priority_and_ticket_draft envX oAllOk uuidSupply
          reqTicket.userId reqTicket.query rfl⟩

/-- The excerpt built at query.rs line 120 never exceeds 150 characters. -/
theorem excerpt150_length_le (t : String) : (excerpt150 t).length ≤ 150 := by
  show (t.data.take 150).length ≤ 150
  simp [List.length_take]

/-- Claim C7 (confirmed): for every match returned by the vector-search
collaborator, a citation and a context entry are produced exactly when the
match's text is non-empty — the citation list is, pointwise, the non-empty
matches (with excerpt and score), the context is the concatenation of
`- {text}\n` lines over exactly those matches — and every produced
citation's excerpt is at most 150 characters long. -/
theorem citations_iff_nonempty_text_and_excerpt_bounded (f : Nat → Uuid)
    (k : Nat) (ms : List SearchMatch) :
    (processMatches f k ms).2.map (fun c => (c.page, c.text, c.relevanceScore))
      = (ms.filter (fun m => !(m.text = ""))).map
          (fun m => (m.page, excerpt150 m.text, m.score))
    ∧ (processMatches f k ms).1
      = (ms.filter (fun m => !(m.text = ""))).foldr
          (fun m acc => "- " ++ m.text ++ "\n" ++ acc) ""
    ∧ (processMatches f k ms).2.all (fun c => c.text.length ≤ 150) = true := by
  induction ms generalizing k with
  | nil => exact ⟨rfl, rfl, rfl⟩
  | cons m rest ih =>
    by_cases hm : m.text = ""
    · simpa [processMatches, hm] using ih k
    · obtain ⟨h1, h2, h3⟩ := ih (k + 1)
      simp [processMatches, hm, h1, h2, h3, mkCitation, excerpt150_length_le]

/-- Claim C8 (corrected), counterexample: the claim says that after a
rejection no connector is ever invoked for that action, during the call or
afterwards.  At this concrete input the rejection itself invokes nothing and
sets status "rejected", but a later approve call on the same (terminal)
action succeeds — the UPDATE is not guarded on Pending — and invokes the
Slack connector after all. -/
theorem rejected_action_later_executed_counterexample :
    rejectOutcome9.events = []
    ∧ (findRow rejectOutcome9.rows 9).map (fun r => r.status) = some "rejected"
    ∧ approveAfterReject9.responseStatus = "success"
    ∧ approveAfterReject9.events.length = 1 := by
  decide

/-- Claim C8 (corrected), amended: for every decide call with
`approved = false` whose UPDATE succeeds, the targeted action's status
becomes "rejected" and no connector (email, ticketing, or chat) is invoked
during that call; the original "never afterwards" guarantee does not hold,
since a later approve call can still move the action out of Rejected and
execute it (see the counterexample). -/
theorem reject_no_connector_in_call (env : Env) (db : DbOracles)
    (co : ConnOracles) (req : ApproveRequest) (rows : List ActionRow)
    (happ : req.approved = false) (hdb : db.updateOk = true) :
    (handle_approve env db co req rows).events = []
    ∧ (handle_approve env db co req rows).responseStatus = "success"
    ∧ (∀ r ∈ (handle_approve env db co req rows).rows,
         r.id = req.actionId → r.status = "rejected") := by
  refine ⟨by simp [handle_approve, happ, hdb], by simp [handle_approve, happ, hdb], ?_⟩
  intro r hr hid
  simp [handle_approve, happ, hdb, updateRows, List.mem_map] at hr
  obtain ⟨r0, _, hr0⟩ := hr
  by_cases h0 : r0.id = req.actionId
  · rw [if_pos h0] at hr0
    rw [← hr0]
  · rw [if_neg h0] at hr0
    exact absurd (hr0 ▸ hid) h0

/-- Claim C8 witness: the amended theorem applied to the concrete rejection
of the pending Slack action 9. -/
theorem reject_no_connector_in_call_witness :
    rejectReq9.approved = false
    ∧ dbAllOk.updateOk = true
    ∧ ((handle_approve envX dbAllOk connAllOk rejectReq9 [row9]).events = []
       ∧ (handle_approve envX dbAllOk connAllOk rejectReq9 [row9]).responseStatus
           = "success"
       ∧ (∀ r ∈ (handle_approve envX dbAllOk connAllOk rejectReq9 [row9]).rows,
            r.id = rejectReq9.actionId → r.status = "rejected")) :=
  ⟨rfl, rfl,
   reject_no_connector_in_call envX dbAllOk connAllOk rejectReq9 [row9] rfl rfl⟩

/-- Every citation built by the match loop draws both identifiers from the
fresh-UUID supply: the citation built at loop counter `j` has
`docId = f (2*j)` and `passageId = f (2*j+1)`, with `j` bounded by the
number of matches. -/
theorem processMatches_ids (f : Nat → Uuid) (ms : List SearchMatch) :
    ∀ (k : Nat), ∀ c ∈ (processMatches f k ms).2,
      ∃ j, k ≤ j ∧ j < k + ms.length
        ∧ c.docId = f (2 * j) ∧ c.passageId = f (2 * j + 1) := by
  induction ms with
  | nil =>
    intro k c hc
    simp [processMatches] at hc
  | cons m rest ih =>
    intro k c hc
    by_cases hm : m.text = ""
    · simp only [processMatches, hm, if_true, ite_true, eq_self_iff_true] at hc
      obtain ⟨j, hj1, hj2, hj3, hj4⟩ := ih k c hc
      exact ⟨j, hj1, by simp only [List.length_cons]; omega, hj3, hj4⟩
    · simp only [processMatches, hm, ite_false, if_false, eq_self_iff_true,
        List.mem_cons] at hc
      rcases hc with rfl | hc
      · exact ⟨k, Nat.le_refl k, by simp only [List.length_cons]; omega, rfl, rfl⟩
      · obtain ⟨j, hj1, hj2, hj3, hj4⟩ := ih (k + 1) c hc
        exact ⟨j, by omega, by simp only [List.length_cons]; omega, hj3, hj4⟩

/-- The match loop never reads a match's metadata document identifier:
blanking every metadata id leaves the produced context and citations
unchanged. -/
theorem processMatches_scrub (f : Nat → Uuid) (ms : List SearchMatch) :
    ∀ k, processMatches f k (ms.map scrubDocId) = processMatches f k ms := by
  induction ms with
  | nil => intro k; rfl
  | cons m rest ih =>
    intro k
    by_cases hm : m.text = ""
    · simp [processMatches, scrubDocId, hm, ih]
    · simp [processMatches, scrubDocId, hm, ih, mkCitation]

/-- Claim C9 (confirmed): every citation's `doc_id` and `passage_id` are
freshly generated UUIDs drawn at response time from the fresh supply, not
the identifiers carried in the matches' metadata: (1) blanking all metadata
ids leaves the built citations unchanged, (2) two responses built from the
identical retrieval result with disjoint fresh supplies carry pairwise
different citation identifiers, and (3) when the fresh supply avoids the
source documents' ids, no citation's `doc_id` links back to a source
document.  The supply hypotheses only range over the finitely many indices
the loop can consume. -/
theorem citation_ids_fresh_not_metadata (ms : List SearchMatch)
    (f g : Nat → Uuid)
    (hdisj : ∀ i < 2 * ms.length, ∀ j < 2 * ms.length, f i ≠ g j)
    (havoid : ∀ i < 2 * ms.length, ∀ m ∈ ms, f i ≠ m.docId) :
    processMatches f 0 (ms.map scrubDocId) = processMatches f 0 ms
    ∧ (∀ c ∈ (processMatches f 0 ms).2, ∀ c' ∈ (processMatches g 0 ms).2,
         c.docId ≠ c'.docId ∧ c.passageId ≠ c'.passageId)
    ∧ (∀ c ∈ (processMatches f 0 ms).2, ∀ m ∈ ms, c.docId ≠ m.docId) := by
  refine ⟨processMatches_scrub f ms 0, ?_, ?_⟩
  · intro c hc c' hc'
    obtain ⟨j, _, hj2, hd, hp⟩ := processMatches_ids f ms 0 c hc
    obtain ⟨j', _, hj2', hd', hp'⟩ := processMatches_ids g ms 0 c' hc'
    constructor
    · rw [hd, hd']
      exact hdisj (2 * j) (by omega) (2 * j') (by omega)
    · rw [hp, hp']
      exact hdisj (2 * j + 1) (by omega) (2 * j' + 1) (by omega)
  · intro c hc m hm
    obtain ⟨j, _, hj2, hd, _⟩ := processMatches_ids f ms 0 c hc
    rw [hd]
    exact havoid (2 * j) (by omega) m hm

/-- Claim C9 witness: the theorem applied to a concrete two-match retrieval
result with the even/odd fresh supplies. -/
theorem citation_ids_fresh_not_metadata_witness :
    (∀ i < 2 * msEx.length, ∀ j < 2 * msEx.length, fEven i ≠ gOdd j)
    ∧ (∀ i < 2 * msEx.length, ∀ m ∈ msEx, fEven i ≠ m.docId)
    ∧ (processMatches fEven 0 (msEx.map scrubDocId) = processMatches fEven 0 msEx
       ∧ (∀ c ∈ (processMatches fEven 0 msEx).2,
            ∀ c' ∈ (processMatches gOdd 0 msEx).2,
            c.docId ≠ c'.docId ∧ c.passageId ≠ c'.passageId)
       ∧ (∀ c ∈ (processMatches fEven 0 msEx).2, ∀ m ∈ msEx,
            c.docId ≠ m.docId)) :=
  ⟨by decide, by decide,
   citation_ids_fresh_not_metadata msEx fEven gOdd (by decide) (by decide)⟩

/-- Claim C10 (confirmed): when executing a SendEmail action with SMTP
credentials configured, the transmitted message is addressed to the
configured SMTP user whenever the payload's recipient is absent or equals
exactly "admin@example.com", and to the payload's recipient verbatim
otherwise. -/
theorem email_recipient_resolution (env : Env) (mailOk : Bool) (p : Payload)
    (hu : ¬ env.smtpUser = "") (hp : ¬ env.smtpPass = "") :
    (send_real_email env mailOk p).1 =
      [ConnEvent.smtpSend
        (match p.recipient with
         | none => env.smtpUser
         | some r => if r = "admin@example.com" then env.smtpUser else r)
        "🚨 Agentic AI Alert"
        ("Action executed:\n\n" ++ p.description.getD "No description")] := by
  cases hr : p.recipient with
  | none => simp [send_real_email, hu, hp, hr]
  | some r =>
    by_cases hadmin : r = "admin@example.com"
    · simp [send_real_email, hu, hp, hr, hadmin]
    · simp [send_real_email, hu, hp, hr, hadmin]

/-- Claim C10 witness: the theorem applied to a payload carrying the
explicit recipient "bob@corp.example". -/
theorem email_recipient_resolution_witness :
    ¬ envX.smtpUser = ""
    ∧ ¬ envX.smtpPass = ""
    ∧ (send_real_email envX true payloadBob).1 =
        [ConnEvent.smtpSend
          (match payloadBob.recipient with
           | none => envX.smtpUser
           | some r => if r = "admin@example.com" then envX.smtpUser else r)
          "🚨 Agentic AI Alert"
          ("Action executed:\n\n" ++ payloadBob.description.getD "No description")] :=
  ⟨by decide, by decide,
   email_recipient_resolution envX true payloadBob (by decide) (by decide)⟩

end AgenticAI
